import Mathlib

/-!
Verification development for the tfjs webgl/webgpu face-mask application.

The definitions below are a shallow embedding of the JavaScript sources:

ˍ src/face_landmark/webgpu/js/mask-manager.js  (class MaskManager)
ˍ src/face_landmark/webgpu/js/app.js           (enhancedRender, smoothPredictions,
                                                FaceLandmarkRenderer.createVertexData,
                                                the WGSL vertex stage, render uniforms)
ˍ src/unnamed/part_001                         (class Matrix4)
ˍ src/unnamed/part_002                         (class TextureLoader)

JavaScript class bodies in this repository define several methods twice or three
times; per JS semantics the lexically last definition of each method name is the
one that is live.  In mask-manager.js the live methods are: addMask (lines
165 to 219), createBindGroup (221 to 249), getActiveMask (150 to 163),
setActiveMask (330 to 350), computeFaceLandmarks (352 to 388), cleanupOldMasks
(390 to 397), removeMask (399 to 421).  The embedding below follows those.

Numbers are modelled with Rat where the source uses JS numbers; machine floats
carry no overflow in the value ranges the claims exercise, and all claims here
are either exact identities (products with 0 and 1, copies) or evaluations at
small concrete inputs, so the rational model is faithful for them.
-/

namespace MaskApp

/-- Outcome of a JavaScript statement or call: a normal value, or a thrown
exception carrying its message. -/
inductive JsOutcome (α : Type) where
  | ok (a : α)
  | thrown (msg : String)
  deriving Repr, DecidableEq

/-- A loaded GPU texture bundle as returned by TextureLoader (the object
holding texture, sampler, width, height).  The payload is an identifier so
that distinct loads are distinguishable and destruction can be tracked. -/
structure TextureData where
  texId : Nat
  deriving Repr, DecidableEq

/-- One mask record as built by the live addMask (mask-manager.js lines
194 to 199): the object literal is
  mask = id, textureData, bindGroup, lastUsed.
Note the loaded texture is stored under the property name textureData; the
record has NO property named texture, and no successful code path ever adds
one.  The landmarks property is absent until setActiveMask assigns it; an
absent or null property is modelled as none. -/
structure MaskRec where
  id : String
  textureData : TextureData
  landmarks : Option (List ℚ)
  lastUsed : Nat
  deriving Repr, DecidableEq

/-- MaskManager state (constructor, mask-manager.js lines 2 to 10):
masks is a JS Map kept in insertion order, activeMaskId starts null,
maskQueue starts empty, maxMasks is 5.  destroyedTextures records every
texture on which destroy() was actually invoked, and detectorCalls counts
how many times the face-landmark detector was actually reached. -/
structure MMState where
  masks : List (String × MaskRec)
  activeMaskId : Option String
  maskQueue : List String
  maxMasks : Nat
  destroyedTextures : List Nat
  detectorCalls : Nat
  deriving Repr, DecidableEq

/-- The state built by the MaskManager constructor. -/
def initMM : MMState :=
  { masks := [], activeMaskId := none, maskQueue := [], maxMasks := 5,
    destroyedTextures := [], detectorCalls := 0 }

/-- JS Map.get: the value stored at key k, if any. -/
def mapGet (m : List (String × MaskRec)) (k : String) : Option MaskRec :=
  match m with
  | [] => none
  | (k2, v) :: rest => if k2 = k then some v else mapGet rest k

/-- JS Map.set: overwrite in place when the key exists (keeping its position
in insertion order), otherwise append at the end. -/
def mapSet (m : List (String × MaskRec)) (k : String) (v : MaskRec) :
    List (String × MaskRec) :=
  match m with
  | [] => [(k, v)]
  | (k2, v2) :: rest =>
      if k2 = k then (k, v) :: rest else (k2, v2) :: mapSet rest k v

/-- JS truthiness of the activeMaskId field: null and the empty string are
falsy, every other string is truthy. -/
def activeFalsy : Option String → Bool
  | none => true
  | some s => s = ""

/-- computeFaceLandmarks (mask-manager.js lines 352 to 388).  Its first
statement is a guard outside the try block:
  if (!texture || !texture.texture) throw Error
so when the argument is undefined (none) the call throws before the
face-landmark detector is ever loaded or invoked.  With a real texture the
detector runs (detectorCalls is incremented); detector errors are caught
inside the try and converted to null, and an empty prediction list also
yields null, so the abstract detector det returns an Option. -/
def computeFaceLandmarks (det : TextureData → Option (List ℚ))
    (st : MMState) (texture : Option TextureData) :
    JsOutcome (Option (List ℚ)) × MMState :=
  match texture with
  | none => (.thrown "Invalid texture for landmark computation", st)
  | some t =>
      (.ok (det t), { st with detectorCalls := st.detectorCalls + 1 })

/-- Result of a setActiveMask call as its caller observes it. -/
inductive SetMaskResult where
  | ok (m : MaskRec)
  | errNotFound
  | errInvalidTexture
  deriving Repr, DecidableEq

/-- setActiveMask (mask-manager.js lines 330 to 350).  Unknown ids throw a
not-found error before any mutation.  For a known id the code mutates
lastUsed and activeMaskId, then, when mask.landmarks is falsy, evaluates
  mask.landmarks = await this.computeFaceLandmarks(mask.texture)
The mask object has no property named texture (addMask stores the loaded
bundle under textureData), so the argument is undefined: the model passes
none.  computeFaceLandmarks then throws its invalid-texture guard; the
catch in setActiveMask logs and rethrows, with the earlier mutations kept
(JS object mutation is not rolled back by a throw). -/
def setActiveMask (det : TextureData → Option (List ℚ))
    (st : MMState) (id : String) (now : Nat) : SetMaskResult × MMState :=
  match mapGet st.masks id with
  | none => (.errNotFound, st)
  | some mask =>
      let mask1 := { mask with lastUsed := now }
      let st1 := { st with masks := mapSet st.masks id mask1,
                           activeMaskId := some id }
      match mask1.landmarks with
      | some l => (.ok { mask1 with landmarks := some l }, st1)
      | none =>
          match computeFaceLandmarks det st1 none with
          | (.thrown _, st2) => (.errInvalidTexture, st2)
          | (.ok res, st2) =>
              let mask2 := { mask1 with landmarks := res }
              (.ok mask2, { st2 with masks := mapSet st2.masks id mask2 })

/-- The try-block body of removeMask (mask-manager.js lines 399 to 421).
When the id is absent the if guard makes the whole body a silent no-op
(no throw, no log).  When the id is present the first statement is
  mask.texture.texture?.destroy?.()
and the mask record stores its texture bundle under the property name
textureData, so mask.texture is undefined and the member access .texture on
it throws a TypeError before the destroy, the masks.delete, the queue splice
or the activeMaskId reassignment can run. -/
def removeMaskBody (st : MMState) (id : String) : JsOutcome MMState :=
  match mapGet st.masks id with
  | none => .ok st
  | some _ => .thrown "TypeError: cannot read properties of undefined"

/-- removeMask (mask-manager.js lines 399 to 421): the body above wrapped in
a catch-all that only logs, so the caller always gets a normal return and
the state mutated so far (none, since the throw precedes every mutation). -/
def removeMask (st : MMState) (id : String) : MMState :=
  match removeMaskBody st id with
  | .ok st2 => st2
  | .thrown _ => st

/-- One report of the while loop of cleanupOldMasks (mask-manager.js lines
390 to 397), with fuel for termination: each iteration shifts exactly one id
off the queue, so the initial queue length bounds the iteration count. -/
def cleanupLoop : Nat → MMState → MMState
  | 0, st => st
  | fuel + 1, st =>
      if st.maskQueue.length > st.maxMasks then
        match st.maskQueue with
        | [] => st
        | oldest :: rest =>
            let st1 := { st with maskQueue := rest }
            let st2 := if st1.activeMaskId = some oldest then st1
                       else removeMask st1 oldest
            cleanupLoop fuel st2
      else st

/-- cleanupOldMasks (mask-manager.js lines 390 to 397): while the queue is
longer than maxMasks, shift the oldest id and, unless it is the active id,
call removeMask on it. -/
def cleanupOldMasks (st : MMState) : MMState :=
  cleanupLoop st.maskQueue.length st

/-- The successful path of the live addMask (mask-manager.js lines 165 to
219) for a freshly loaded texture: build the mask record, Map.set it, push
the id on the queue, make it active when activeMaskId is falsy, then run
cleanupOldMasks.  All failure paths of addMask throw before the first
mutation, so a failed addMask leaves the state unchanged and is not
modelled separately. -/
def addMask (st : MMState) (id : String) (tex : TextureData) : MMState :=
  let mask : MaskRec := { id := id, textureData := tex, landmarks := none,
                          lastUsed := 0 }
  let st1 := { st with masks := mapSet st.masks id mask,
                       maskQueue := st.maskQueue ++ [id] }
  let st2 := if activeFalsy st1.activeMaskId then
               { st1 with activeMaskId := some id }
             else st1
  cleanupOldMasks st2

/-- getActiveMask (mask-manager.js lines 150 to 163): when activeMaskId is
falsy and the map is non-empty, auto-select the first key of the map; then
return the entry at activeMaskId, or null when there is none. -/
def getActiveMask (st : MMState) : Option MaskRec × MMState :=
  let st1 :=
    match st.masks, activeFalsy st.activeMaskId with
    | (k, _) :: _, true => { st with activeMaskId := some k }
    | _, _ => st
  let res :=
    match st1.activeMaskId with
    | some k => mapGet st1.masks k
    | none => none
  (res, st1)

/-! ## TextureLoader (src/unnamed/part_002)

The claims cite the loadImage methods at part_002 lines 145 to 177 and 441
to 483 (the second and third drafted TextureLoader classes).  Both have the
same control shape: a try block that fetches, decodes and builds the GPU
texture, and a catch that logs the failure and returns
await this.createFallbackTexture() to the caller.  The embedding below
follows the 145 to 177 variant, which additionally routes image/jpeg blobs
through the grayscale-to-alpha conversion; the 441 to 483 variant differs
only in lacking that branch and the response.ok check. -/

/-- An abstract decoded image. -/
structure Image where
  imgId : Nat
  deriving Repr, DecidableEq

/-- The outcome of the environment steps inside loadImage's try block:
the fetch may reject, the HTTP response may be not ok, createImageBitmap
may throw on an undecodable blob, or a blob with a MIME format decodes to
an image. -/
inductive LoadInput where
  | netError
  | httpNotOk (status : Nat)
  | decodeError
  | decoded (format : String) (img : Image)
  deriving Repr, DecidableEq

/-- Whether a LoadInput is one of the failure outcomes. -/
def LoadInput.isFailure : LoadInput → Bool
  | .netError => true
  | .httpNotOk _ => true
  | .decodeError => true
  | .decoded _ _ => false

/-- What loadImage hands back to its caller. -/
inductive LoadedTexture where
  /-- texture built from the decoded image; the flag records whether the
  jpeg grayscale-to-alpha conversion was applied. -/
  | fromImage (img : Image) (grayscaleMasked : Bool)
  /-- the deterministic procedural fallback texture built by
  createFallbackTexture (part_002 lines 237 to 281): a fixed 256 by 256
  gradient canvas, marked isFallback true. -/
  | fallback
  deriving Repr, DecidableEq

/-- loadImage (part_002 lines 145 to 177).  Every failure inside the try
block lands in the catch, which logs and returns the fallback texture, so
the call never propagates an error to the caller: the Except codomain is
what the caller can observe, and every branch is ok.  createFallbackTexture
performs only canvas drawing and texture creation, modelled as total. -/
def loadImage (input : LoadInput) : Except String LoadedTexture :=
  match input with
  | .netError => .ok .fallback
  | .httpNotOk _ => .ok .fallback
  | .decodeError => .ok .fallback
  | .decoded format img =>
      if format = "image/jpeg" then .ok (.fromImage img true)
      else .ok (.fromImage img false)

/-! ## Temporal smoothing and the render tick (app.js) -/

/-- A 3D point. -/
abbrev Vec3 : Type := ℚ × ℚ × ℚ

/-- A face prediction object.  The code only reads its scaledMesh property;
other properties are carried along by the object spread and are irrelevant
here.  A prediction object may lack scaledMesh (undefined, falsy), hence
the Option. -/
structure Prediction where
  scaledMesh : Option (List Vec3)
  deriving Repr, DecidableEq

/-- The per-index body of the smoothing map (app.js lines 481 to 490):
blend each component as point * (1 - factor) + lastPoint * factor; when the
previous mesh has no point at this index, pass the live point through. -/
def smoothMesh (lmesh : List Vec3) (factor : ℚ) : Nat → List Vec3 → List Vec3
  | _, [] => []
  | i, pt :: rest =>
      (match lmesh.get? i with
       | none => pt
       | some lpt =>
           (pt.1 * (1 - factor) + lpt.1 * factor,
            pt.2.1 * (1 - factor) + lpt.2.1 * factor,
            pt.2.2 * (1 - factor) + lpt.2.2 * factor)) ::
      smoothMesh lmesh factor (i + 1) rest

/-- smoothPredictions (app.js lines 470 to 499).  The first argument is the
module-level window.lastPrediction; the result pairs the returned
prediction with the new value of window.lastPrediction.  When the incoming
prediction or the stored one has no scaledMesh the function returns the
input (storing it in the second case); otherwise it blends and stores the
blended prediction, not the raw one. -/
def smoothPredictions (lastPrediction : Option Prediction) (factor : ℚ)
    (p : Prediction) : Prediction × Option Prediction :=
  match p.scaledMesh with
  | none => (p, lastPrediction)
  | some mesh =>
      match lastPrediction with
      | none => (p, some p)
      | some lp =>
          match lp.scaledMesh with
          | none => (p, some p)
          | some lmesh =>
              let sp : Prediction :=
                { p with scaledMesh := some (smoothMesh lmesh factor 0 mesh) }
              (sp, some sp)

/-- The readiness and cadence inputs of one enhancedRender tick. -/
structure TickFlags where
  /-- videoStream is non-null. -/
  videoPresent : Bool
  /-- videoStream.videoWidth is non-zero.  (The third disjunct of the
  guard at app.js line 382 compares a boolean to HAVE_ENOUGH_DATA with
  strict equality and is therefore always false; only these two checks
  gate the tick.) -/
  videoWidthNonzero : Bool
  /-- frameCounter modulo round(60 / predictionsPerSecond) is zero. -/
  shouldDetect : Bool
  /-- faceMeshModel is non-null. -/
  modelPresent : Bool
  /-- guiProperties.enableSmoothing. -/
  enableSmoothing : Bool
  deriving Repr, DecidableEq

/-- Outcome of the awaited faceMeshModel.estimateFaces call. -/
inductive DetectOutcome where
  | failed (msg : String)
  | ok (preds : List Prediction)
  deriving Repr, DecidableEq

/-- The externally visible effects of one enhancedRender tick. -/
structure TickEffects where
  /-- number of renderer.render calls issued by this tick. -/
  renderCalls : Nat
  /-- whether the detection catch block logged a detection error. -/
  loggedDetectionError : Bool
  /-- whether requestAnimationFrame(enhancedRender) was called, keeping
  the loop alive. -/
  scheduledNextFrame : Bool
  deriving Repr, DecidableEq

/-- One tick of enhancedRender (app.js lines 377 to 437).  The video guard
returns early but still schedules the next frame.  On a detection tick the
estimateFaces call is awaited inside a try whose catch logs the error; the
renderer.render call sits inside that same try and runs only when the
detection succeeded with a non-empty prediction list and an active mask is
available.  requestAnimationFrame runs after the outer try/catch on every
path.  The maskManager.getActiveMask() result is passed in as activeMask,
and window.lastPrediction is threaded explicitly. -/
def enhancedRenderTick (flags : TickFlags) (det : DetectOutcome)
    (activeMask : Option MaskRec) (lastPrediction : Option Prediction)
    (factor : ℚ) : TickEffects × Option Prediction :=
  if ¬ (flags.videoPresent && flags.videoWidthNonzero) then
    ({ renderCalls := 0, loggedDetectionError := false,
       scheduledNextFrame := true }, lastPrediction)
  else if flags.shouldDetect && flags.modelPresent then
    match det with
    | .failed _ =>
        ({ renderCalls := 0, loggedDetectionError := true,
           scheduledNextFrame := true }, lastPrediction)
    | .ok [] =>
        ({ renderCalls := 0, loggedDetectionError := false,
           scheduledNextFrame := true }, lastPrediction)
    | .ok (p :: _) =>
        let (_, last2) :=
          if flags.enableSmoothing then smoothPredictions lastPrediction factor p
          else (p, lastPrediction)
        match activeMask with
        | some _ =>
            ({ renderCalls := 1, loggedDetectionError := false,
               scheduledNextFrame := true }, last2)
        | none =>
            ({ renderCalls := 0, loggedDetectionError := false,
               scheduledNextFrame := true }, last2)
  else
    ({ renderCalls := 0, loggedDetectionError := false,
       scheduledNextFrame := true }, lastPrediction)

/-! ## Vertex-buffer synthesis (FaceLandmarkRenderer, app.js)

createVertexData (app.js lines 1807 to 1836) allocates a Float32Array of
length scaledMesh.length * 10 (zero-initialised) and, per vertex, writes
nine consecutive floats: position x y z, texCoord u v, landmark x y z,
vertexAlpha.  The pipeline (app.js lines 1704 to 1712) declares a vertex
stride of 40 bytes, ten floats, with attribute offsets 0 (position),
12 (texCoord), 20 (landmark) and 32 (vertexAlpha), i.e. float indices 0, 3,
5 and 8 within each ten-float slot; render issues draw(length / 10).  The
vertex stage (app.js lines 1639 to 1656) computes
  pos = mix(input.position, input.landmark, uniforms.properties.w)
and the render call (lines 1756 to 1762) writes 0 into properties.w. -/

/-- getMeshUV (app.js lines 1838 to 1842): the placeholder returns [0, 0]
for every index. -/
def getMeshUV (_ : Nat) : ℚ × ℚ := (0, 0)

/-- getVertexAlpha (app.js lines 1844 to 1848): the placeholder returns 1.0
for every index. -/
def getVertexAlpha (_ : Nat) : ℚ := 1

/-- The nine floats written for one vertex by the loop body of
createVertexData, in write order. -/
def vertexRecord (pos : Vec3) (uv : ℚ × ℚ) (maskPos : Vec3) (alpha : ℚ) :
    List ℚ :=
  [pos.1, pos.2.1, pos.2.2, uv.1, uv.2, maskPos.1, maskPos.2.1, maskPos.2.2,
   alpha]

/-- The concatenated per-vertex records of the createVertexData loop,
walking both meshes in step with the running index i. -/
def vertexRecords : List Vec3 → List Vec3 → Nat → List ℚ
  | [], _, _ => []
  | p :: ps, m :: ms, i =>
      vertexRecord p (getMeshUV i) m (getVertexAlpha i) ++
        vertexRecords ps ms (i + 1)
  | _ :: _, [], _ => []

/-- createVertexData (app.js lines 1807 to 1836).  The loop runs over
prediction.scaledMesh and indexes maskLandmarks[i]; when maskLandmarks is
shorter, the first out-of-range iteration evaluates maskPos[0] on undefined
and throws a TypeError (no silent truncation).  Otherwise the result is the
nine-float records followed by the untouched zero tail of the
Float32Array(mesh.length * 10) allocation. -/
def createVertexData (mesh maskLandmarks : List Vec3) :
    JsOutcome (List ℚ) :=
  if mesh.length ≤ maskLandmarks.length then
    .ok (vertexRecords mesh maskLandmarks 0 ++
         List.replicate mesh.length 0)
  else
    .thrown "TypeError: cannot read properties of undefined"

/-- Read float k of the vertex buffer as the GPU does; out-of-range reads
do not occur for indices below length / 10 * 10. -/
def bufferFloat (data : List ℚ) (k : Nat) : ℚ := data.getD k 0

/-- The position attribute of vertex j per the pipeline's declared layout:
stride ten floats, offset 0. -/
def pipelinePosition (data : List ℚ) (j : Nat) : Vec3 :=
  (bufferFloat data (10 * j), bufferFloat data (10 * j + 1),
   bufferFloat data (10 * j + 2))

/-- The landmark attribute of vertex j per the pipeline's declared layout:
stride ten floats, offset 20 bytes = float 5. -/
def pipelineLandmark (data : List ℚ) (j : Nat) : Vec3 :=
  (bufferFloat data (10 * j + 5), bufferFloat data (10 * j + 6),
   bufferFloat data (10 * j + 7))

/-- The WGSL mix of the vertex stage: mix(a, b, w) = a * (1 - w) + b * w
componentwise. -/
def shaderMix (a b : Vec3) (w : ℚ) : Vec3 :=
  (a.1 * (1 - w) + b.1 * w, a.2.1 * (1 - w) + b.2.1 * w,
   a.2.2 * (1 - w) + b.2.2 * w)

/-- The position the vertex stage computes for vertex j of the buffer with
morph weight w (uniforms.properties.w). -/
def morphedPosition (data : List ℚ) (j : Nat) (w : ℚ) : Vec3 :=
  shaderMix (pipelinePosition data j) (pipelineLandmark data j) w

/-- The vertex count passed to draw: vertexData.length / 10 (app.js line
1800). -/
def drawVertexCount (data : List ℚ) : Nat := data.length / 10

/-! ## Matrix4 (src/unnamed/part_001) -/

/-- The element storage of a Matrix4: this.elements, a flat array of
sixteen numbers in column-major layout. -/
def Mat4 : Type := Fin 16 → ℚ

/-- identity() (part_001 lines 8 to 15): overwrite all sixteen elements,
ones at indices 0, 5, 10, 15 and zeros elsewhere. -/
def Matrix4.identity : Mat4 := fun i =>
  if i = 0 ∨ i = 5 ∨ i = 10 ∨ i = 15 then 1 else 0

/-- multiply(m) (part_001 lines 70 to 106).  The source first reads all
sixteen entries of this.elements and all sixteen of m.elements into the
locals a11..a44 and b11..b44, and only then stores into e, which aliases
this.elements (and aliases m.elements as well when multiply is called with
the receiver as its own argument).  The embedding mirrors this exactly:
the locals below are read from the operands first, and the sixteen stores
are the chain of point updates in source order, each applied to the array
produced by the previous store, so the behaviour of the in-place store
sequence under aliasing is preserved. -/
def Matrix4.multiply (self m : Mat4) : Mat4 :=
  let a11 := self 0; let a12 := self 4; let a13 := self 8; let a14 := self 12
  let a21 := self 1; let a22 := self 5; let a23 := self 9; let a24 := self 13
  let a31 := self 2; let a32 := self 6; let a33 := self 10; let a34 := self 14
  let a41 := self 3; let a42 := self 7; let a43 := self 11; let a44 := self 15
  let b11 := m 0; let b12 := m 4; let b13 := m 8; let b14 := m 12
  let b21 := m 1; let b22 := m 5; let b23 := m 9; let b24 := m 13
  let b31 := m 2; let b32 := m 6; let b33 := m 10; let b34 := m 14
  let b41 := m 3; let b42 := m 7; let b43 := m 11; let b44 := m 15
  let e1 := Function.update self 0 (a11 * b11 + a12 * b21 + a13 * b31 + a14 * b41)
  let e2 := Function.update e1 4 (a11 * b12 + a12 * b22 + a13 * b32 + a14 * b42)
  let e3 := Function.update e2 8 (a11 * b13 + a12 * b23 + a13 * b33 + a14 * b43)
  let e4 := Function.update e3 12 (a11 * b14 + a12 * b24 + a13 * b34 + a14 * b44)
  let e5 := Function.update e4 1 (a21 * b11 + a22 * b21 + a23 * b31 + a24 * b41)
  let e6 := Function.update e5 5 (a21 * b12 + a22 * b22 + a23 * b32 + a24 * b42)
  let e7 := Function.update e6 9 (a21 * b13 + a22 * b23 + a23 * b33 + a24 * b43)
  let e8 := Function.update e7 13 (a21 * b14 + a22 * b24 + a23 * b34 + a24 * b44)
  let e9 := Function.update e8 2 (a31 * b11 + a32 * b21 + a33 * b31 + a34 * b41)
  let e10 := Function.update e9 6 (a31 * b12 + a32 * b22 + a33 * b32 + a34 * b42)
  let e11 := Function.update e10 10 (a31 * b13 + a32 * b23 + a33 * b33 + a34 * b43)
  let e12 := Function.update e11 14 (a31 * b14 + a32 * b24 + a33 * b34 + a34 * b44)
  let e13 := Function.update e12 3 (a41 * b11 + a42 * b21 + a43 * b31 + a44 * b41)
  let e14 := Function.update e13 7 (a41 * b12 + a42 * b22 + a43 * b32 + a44 * b42)
  let e15 := Function.update e14 11 (a41 * b13 + a42 * b23 + a43 * b33 + a44 * b43)
  let e16 := Function.update e15 15 (a41 * b14 + a42 * b24 + a43 * b34 + a44 * b44)
  e16

/-! ## Concrete scenario states used by the claim theorems -/

/-- A detector stub for scenario states; it is never reached (see
claim C6), so its value is irrelevant. -/
def dummyDet : TextureData → Option (List ℚ) := fun _ => none

/-- Six successful addMask calls with ids A to F on a fresh manager; A is
the first mask and becomes (and stays) active. -/
def s6 : MMState :=
  addMask (addMask (addMask (addMask (addMask (addMask initMM
    "A" ⟨1⟩) "B" ⟨2⟩) "C" ⟨3⟩) "D" ⟨4⟩) "E" ⟨5⟩) "F" ⟨6⟩

/-- Five successful addMask calls with ids A to E on a fresh manager. -/
def sABCDE : MMState :=
  addMask (addMask (addMask (addMask (addMask initMM
    "A" ⟨1⟩) "B" ⟨2⟩) "C" ⟨3⟩) "D" ⟨4⟩) "E" ⟨5⟩

/-- The setActiveMask("B") call of the eviction scenario. -/
def c2setB : SetMaskResult × MMState := setActiveMask dummyDet sABCDE "B" 100

/-- The eviction scenario final state: add A..E, set active B, add F. -/
def c2final : MMState := addMask c2setB.2 "F" ⟨6⟩

/-- One successful addMask call with id A on a fresh manager. -/
def sA : MMState := addMask initMM "A" ⟨1⟩

/-- First setActiveMask("A") call of the memoization scenario. -/
def c6r1 : SetMaskResult × MMState := setActiveMask dummyDet sA "A" 10

/-- Second setActiveMask("A") call of the memoization scenario. -/
def c6r2 : SetMaskResult × MMState := setActiveMask dummyDet c6r1.2 "A" 20

/-- The mask record inserted first in the self-healing scenario. -/
def maskX : MaskRec := { id := "X", textureData := ⟨7⟩, landmarks := none,
                         lastUsed := 0 }

/-- The mask record inserted second in the self-healing scenario. -/
def maskY : MaskRec := { id := "Y", textureData := ⟨8⟩, landmarks := none,
                         lastUsed := 0 }

/-- A manager state with two masks and no active id, as left behind by,
for example, a manual activeMaskId reset. -/
def c3state : MMState :=
  { initMM with masks := [("X", maskX), ("Y", maskY)],
                maskQueue := ["X", "Y"] }

/-- The buffer createVertexData produces for the two-vertex morph
scenario: two nine-float records followed by the two untouched zeros of
the Float32Array(2 * 10) allocation. -/
def c7data : List ℚ :=
  [1, 2, 3, 0, 0, 7, 8, 9, 1, 4, 5, 6, 0, 0, 10, 11, 12, 1, 0, 0]

/-- Tick flags with video ready, detection due, model loaded and smoothing
on. -/
def allOn : TickFlags :=
  { videoPresent := true, videoWidthNonzero := true, shouldDetect := true,
    modelPresent := true, enableSmoothing := true }

/-- A mask record for render ticks. -/
def dummyMask : MaskRec := { id := "A", textureData := ⟨1⟩,
                             landmarks := none, lastUsed := 0 }

/-! ## Helper lemmas -/

/-- Indexing into the smoothing map: element i of the blended mesh is the
blend of live element i with previous element j + i, or the live element
alone when the previous mesh is too short. -/
theorem smoothMesh_get? (lmesh : List Vec3) (factor : ℚ) :
    ∀ (mesh : List Vec3) (j i : Nat),
      (smoothMesh lmesh factor j mesh).get? i =
        (mesh.get? i).map (fun pt =>
          match lmesh.get? (j + i) with
          | none => pt
          | some lpt =>
              (pt.1 * (1 - factor) + lpt.1 * factor,
               pt.2.1 * (1 - factor) + lpt.2.1 * factor,
               pt.2.2 * (1 - factor) + lpt.2.2 * factor))
  | [], _, _ => by simp [smoothMesh]
  | pt :: rest, j, 0 => by simp [smoothMesh]
  | pt :: rest, j, i + 1 => by
      have ih := smoothMesh_get? lmesh factor rest (j + 1) i
      simp only [smoothMesh, List.get?_cons_succ, ih]
      have : j + 1 + i = j + (i + 1) := by omega
      rw [this]

/-! ## Claim theorems -/

/-- Claim C1 (code bug, evaluation at the failing input): the capacity
invariant does not hold.  After six successful addMask calls on a fresh
manager (capacity 5, mask A first and therefore active), the masks map
holds six entries, exceeding maxMasks: the eviction pass shifts A off the
queue, and removeMask, reading the nonexistent texture property of the
record, throws internally and deletes nothing — while, as the claim also
says, no texture of any entry (in particular the active one) is ever
destroyed. -/
theorem claim_C1_capacity_violated :
    s6.masks.length = 6 ∧ s6.maxMasks = 5 ∧
    s6.masks.map Prod.fst = ["A", "B", "C", "D", "E", "F"] ∧
    s6.activeMaskId = some "A" ∧ s6.destroyedTextures = [] := by
  refine ⟨rfl, rfl, rfl, rfl, rfl⟩

/-- Claim C2 (code bug, evaluation at the failing input): in the concrete
eviction scenario (add A..E, set active to B, add F) the final map still
contains all six ids, A is neither evicted nor its texture destroyed, and
the setActiveMask("B") call itself threw an invalid-texture error after
setting the active id. -/
theorem claim_C2_eviction_scenario :
    c2setB.1 = .errInvalidTexture ∧
    c2final.masks.map Prod.fst = ["A", "B", "C", "D", "E", "F"] ∧
    c2final.activeMaskId = some "B" ∧
    c2final.destroyedTextures = [] := by
  refine ⟨rfl, rfl, rfl, rfl⟩

/-- Claim C3 (confirmed): on a state whose masks map is non-empty while
activeMaskId is unset, getActiveMask returns the earliest-inserted entry
and sets activeMaskId to its id; on an empty map it returns none and
leaves the state unchanged. -/
theorem claim_C3_self_healing_active (st : MMState) :
    (∀ k m rest, st.activeMaskId = none → st.masks = (k, m) :: rest →
        getActiveMask st = (some m, { st with activeMaskId := some k })) ∧
    (st.masks = [] → getActiveMask st = (none, st)) := by
  constructor
  · intro k m rest h1 h2
    simp [getActiveMask, h1, h2, activeFalsy, mapGet]
  · intro h
    cases h2 : st.activeMaskId <;> simp [getActiveMask, h, h2, activeFalsy, mapGet]

/-- Witness for claim C3 at a two-entry state with no active id and at the
empty initial state. -/
theorem claim_C3_self_healing_active_witness :
    getActiveMask c3state =
      (some maskX, { c3state with activeMaskId := some "X" }) ∧
    getActiveMask initMM = (none, initMM) :=
  ⟨(claim_C3_self_healing_active c3state).1 "X" maskX [("Y", maskY)] rfl rfl,
   (claim_C3_self_healing_active initMM).2 rfl⟩

/-- Claim C4 (counterexample): a failed fetch does not make loadImage fail
with a load error; the call returns the fallback texture, substituting it
for the requested one inside the loader. -/
theorem claim_C4_counterexample :
    loadImage .netError = .ok .fallback := rfl

/-- Claim C4 (corrected): on every failure outcome (network error, HTTP
error status, decode error) loadImage performs no retry and propagates no
error: it logs and itself returns the deterministic fallback texture, so
substitution policy lives in the loader, not the caller. -/
theorem claim_C4_failure_returns_fallback (input : LoadInput)
    (h : input.isFailure = true) : loadImage input = .ok .fallback := by
  cases input <;> simp_all [LoadInput.isFailure, loadImage]

/-- Witness for the corrected claim C4 at the network-failure input. -/
theorem claim_C4_failure_returns_fallback_witness :
    LoadInput.netError.isFailure = true ∧
    loadImage .netError = .ok .fallback :=
  ⟨rfl, claim_C4_failure_returns_fallback .netError rfl⟩

/-- Claim C5 (counterexample): on a fully ready tick whose detection call
fails, enhancedRender issues no render call at all — the claimed render
from the last known smoothed landmarks does not happen (the error is
logged and the next frame is still scheduled). -/
theorem claim_C5_counterexample :
    (enhancedRenderTick allOn (.failed "boom") (some dummyMask) none 0).1 =
      { renderCalls := 0, loggedDetectionError := true,
        scheduledNextFrame := true } := rfl

/-- Claim C5 (corrected): on every tick that runs detection (video ready,
cadence due, model loaded) and whose detection call fails, the failure is
logged and the loop is not halted — the next frame is scheduled — but the
tick issues no render call and leaves the stored smoothed state unchanged;
renders only happen on ticks whose detection succeeds with a non-empty
prediction list. -/
theorem claim_C5_detection_failure_skips_render (flags : TickFlags)
    (det : DetectOutcome) (activeMask : Option MaskRec)
    (lastPrediction : Option Prediction) (factor : ℚ) (msg : String)
    (hv : flags.videoPresent = true) (hw : flags.videoWidthNonzero = true)
    (hs : flags.shouldDetect = true) (hm : flags.modelPresent = true)
    (hd : det = .failed msg) :
    enhancedRenderTick flags det activeMask lastPrediction factor =
      ({ renderCalls := 0, loggedDetectionError := true,
         scheduledNextFrame := true }, lastPrediction) := by
  subst hd
  simp [enhancedRenderTick, hv, hw, hs, hm]

/-- Witness for the corrected claim C5 at a concrete failing tick. -/
theorem claim_C5_detection_failure_skips_render_witness :
    allOn.videoPresent = true ∧ allOn.videoWidthNonzero = true ∧
    allOn.shouldDetect = true ∧ allOn.modelPresent = true ∧
    enhancedRenderTick allOn (.failed "boom") (some dummyMask) none 0 =
      ({ renderCalls := 0, loggedDetectionError := true,
         scheduledNextFrame := true }, none) :=
  ⟨rfl, rfl, rfl, rfl,
   claim_C5_detection_failure_skips_render allOn (.failed "boom")
     (some dummyMask) none 0 "boom" rfl rfl rfl rfl rfl⟩

/-- Claim C6 (code bug, evaluation at the failing input): after adding
mask A, both the first and the second setActiveMask("A") call throw the
invalid-texture error — computeFaceLandmarks receives the nonexistent
texture property of the record (the texture bundle is stored under
textureData) and throws its guard before the detector is reached — so the
landmarks field is never memoized: it is still unset after both calls and
the detector was invoked zero times, while the claim and spec promise a
completed first activation that computes and permanently memoizes them. -/
theorem claim_C6_landmarks_never_memoized :
    c6r1.1 = .errInvalidTexture ∧ c6r2.1 = .errInvalidTexture ∧
    (mapGet c6r2.2.masks "A").map MaskRec.landmarks = some none ∧
    c6r2.2.detectorCalls = 0 := by
  refine ⟨rfl, rfl, rfl, rfl⟩

/-- Claim C7 (code bug, evaluation at the failing input): createVertexData
writes nine floats per vertex but the pipeline reads the buffer with a
ten-float stride, so with morph weight 0 the position the vertex stage
computes for vertex 1 of a two-vertex mesh is (5, 6, 0), not the live
landmark (4, 5, 6) — while the draw call's vertex count (length / 10)
does equal the topology count, and a shorter mask-landmark list makes the
loop throw rather than truncate. -/
theorem claim_C7_vertex_stride_mismatch :
    createVertexData [(1, 2, 3), (4, 5, 6)] [(7, 8, 9), (10, 11, 12)] =
      .ok c7data ∧
    morphedPosition c7data 0 0 = (1, 2, 3) ∧
    morphedPosition c7data 1 0 = (5, 6, 0) ∧
    morphedPosition c7data 1 0 ≠ (4, 5, 6) ∧
    drawVertexCount c7data = 2 ∧
    createVertexData [(1, 2, 3), (4, 5, 6)] [(7, 8, 9)] =
      .thrown "TypeError: cannot read properties of undefined" := by
  refine ⟨rfl, ?_, ?_, ?_, rfl, rfl⟩ <;>
    norm_num [morphedPosition, shaderMix, pipelinePosition, pipelineLandmark,
      bufferFloat, c7data]

/-- Claim C8 (counterexample): removeMask with an unknown id does not
report a not-found error — its body silently skips (no throw anywhere)
and the call returns the state unchanged. -/
theorem claim_C8_counterexample :
    removeMaskBody initMM "missing" = .ok initMM ∧
    removeMask initMM "missing" = initMM := ⟨rfl, rfl⟩

/-- Claim C8 (corrected): for every state and every id absent from the
masks map, setActiveMask fails with the not-found error and leaves the
whole state unchanged, while removeMask also changes no state but reports
no error at all: its body completes without throwing and the call returns
silently. -/
theorem claim_C8_unknown_id (st : MMState) (id : String)
    (det : TextureData → Option (List ℚ)) (now : Nat)
    (h : mapGet st.masks id = none) :
    setActiveMask det st id now = (.errNotFound, st) ∧
    removeMaskBody st id = .ok st ∧ removeMask st id = st := by
  refine ⟨?_, ?_, ?_⟩ <;> simp [setActiveMask, removeMaskBody, removeMask, h]

/-- Witness for the corrected claim C8 on the initial state. -/
theorem claim_C8_unknown_id_witness :
    mapGet initMM.masks "missing" = none ∧
    (setActiveMask dummyDet initMM "missing" 5 = (.errNotFound, initMM) ∧
     removeMaskBody initMM "missing" = .ok initMM ∧
     removeMask initMM "missing" = initMM) :=
  ⟨rfl, claim_C8_unknown_id initMM "missing" dummyDet 5 rfl⟩

/-- Claim C9 (confirmed): on a tick with a previous smoothed state present,
each smoothed point i is live[i] * (1 - factor) + previousSmoothed[i] *
factor componentwise, and the blended prediction (not the raw one) becomes
the stored previous state for the next tick. -/
theorem claim_C9_smoothing (factor : ℚ) (p lp : Prediction)
    (mesh lmesh : List Vec3) (hp : p.scaledMesh = some mesh)
    (hl : lp.scaledMesh = some lmesh) (i : Nat) (pt lpt : Vec3)
    (hm : mesh.get? i = some pt) (hlm : lmesh.get? i = some lpt) :
    ((smoothPredictions (some lp) factor p).1.scaledMesh.bind
        fun sm => sm.get? i) =
      some (pt.1 * (1 - factor) + lpt.1 * factor,
            pt.2.1 * (1 - factor) + lpt.2.1 * factor,
            pt.2.2 * (1 - factor) + lpt.2.2 * factor) ∧
    (smoothPredictions (some lp) factor p).2 =
      some (smoothPredictions (some lp) factor p).1 := by
  refine ⟨?_, ?_⟩
  · simp only [smoothPredictions, hp, hl, Option.some_bind]
    rw [smoothMesh_get? lmesh factor mesh 0 i, hm]
    simp only [Option.map_some', Nat.zero_add, hlm]
  · simp [smoothPredictions, hp, hl]

/-- Witness for claim C9 at a one-point mesh with factor one half. -/
theorem claim_C9_smoothing_witness :
    (Prediction.mk (some [((1:ℚ), (0:ℚ), (0:ℚ))])).scaledMesh =
      some [((1:ℚ), (0:ℚ), (0:ℚ))] ∧
    (((smoothPredictions (some ⟨some [(3, 0, 0)]⟩) (1/2)
          ⟨some [(1, 0, 0)]⟩).1.scaledMesh.bind fun sm => sm.get? 0) =
        some ((1:ℚ) * (1 - 1/2) + 3 * (1/2), 0 * (1 - 1/2) + 0 * (1/2),
              0 * (1 - 1/2) + 0 * (1/2)) ∧
      (smoothPredictions (some ⟨some [(3, 0, 0)]⟩) (1/2)
          ⟨some [(1, 0, 0)]⟩).2 =
        some (smoothPredictions (some ⟨some [(3, 0, 0)]⟩) (1/2)
          ⟨some [(1, 0, 0)]⟩).1) :=
  ⟨rfl, claim_C9_smoothing (1/2) ⟨some [(1, 0, 0)]⟩ ⟨some [(3, 0, 0)]⟩
    [(1, 0, 0)] [(3, 0, 0)] rfl rfl 0 (1, 0, 0) (3, 0, 0) rfl rfl⟩

/-- Claim C10 (confirmed): a Matrix4 on which identity() and then
multiply(m) are called has elements exactly equal to m.  The multiply
embedding performs the sixteen stores sequentially on storage aliasing the
left operand, after reading all operand entries into locals, exactly as
the source does, so the theorem also certifies that the in-place update is
aliasing-safe in this call pattern. -/
theorem claim_C10_identity_left_multiply (m : Mat4) :
    Matrix4.multiply Matrix4.identity m = m := by
  funext i
  fin_cases i <;> simp [Matrix4.multiply, Matrix4.identity, Function.update]

end MaskApp

